import Mathlib

/-!
Verification of the retirement forecasting and tax-aware withdrawal engine.

A shallow embedding, over `ℚ`, of the core of the `retirement` repository:
the account model (`account_types.py`: `AccountType`, `AccountBalance`,
`AccountPortfolio`, `WithdrawalStrategy`), the tax engine
(`tax_calculator.py`: `TaxCalculator`), and the forecast engine
(`retirement_calculator.py`: `Person`, `RetirementCalculator`).

Python floats are modelled as rationals; Python dicts keyed by the closed
`AccountType` enumeration are modelled as functions `AccountType → Option _`
(`none` = key absent); functions that can raise are modelled in
`Except String _`.  Methods that mutate an `AccountPortfolio` in place are
modelled as functions returning the new portfolio; `WithdrawalStrategy`
threads the portfolio through each portfolio-method call it makes so that
its (absence of) effect on the portfolio is expressible.
-/

/-- `AccountType` enumeration of `account_types.py` (lines 11-18): the six
account kinds, a closed enumeration. -/
inductive AccountType where
  | TRADITIONAL_401K
  | TRADITIONAL_IRA
  | ROTH_401K
  | ROTH_IRA
  | TAXABLE
  | HSA
deriving DecidableEq, Repr

/-- `AccountType(value)` string construction (the `Enum` call used at
`retirement_calculator.py` lines 124 and 227): the enum member whose value
matches the string, `none` where Python raises `ValueError`. -/
def parseAccountType (s : String) : Option AccountType :=
  if s = "traditional_401k" then some AccountType.TRADITIONAL_401K
  else if s = "traditional_ira" then some AccountType.TRADITIONAL_IRA
  else if s = "roth_401k" then some AccountType.ROTH_401K
  else if s = "roth_ira" then some AccountType.ROTH_IRA
  else if s = "taxable" then some AccountType.TAXABLE
  else if s = "hsa" then some AccountType.HSA
  else none

/-- `AccountBalance` dataclass (`account_types.py` lines 21-31) without the
redundant `account_type` tag (the portfolio map already keys by it). -/
structure AccountBalance where
  balance : ℚ
  cost_basis : ℚ
deriving DecidableEq, Repr

/-- `AccountBalance.__post_init__` (lines 28-31): clamp the balance to `≥ 0`
first, then the cost basis to `[0, balance]`. -/
def mkAccountBalance (balance cost_basis : ℚ) : AccountBalance :=
  let b := max 0 balance
  { balance := b, cost_basis := max 0 (min cost_basis b) }

/-- `AccountPortfolio.accounts` (line 39): a dict from `AccountType` to
`AccountBalance`, at most one entry per type. -/
def AccountPortfolio := AccountType → Option AccountBalance

/-- The empty portfolio of `AccountPortfolio.__init__` (lines 37-39). -/
def emptyPortfolio : AccountPortfolio := fun _ => none

/-- The list of all six account types (for summing over the dict's values). -/
def allAccountTypes : List AccountType :=
  [AccountType.TRADITIONAL_401K, AccountType.TRADITIONAL_IRA,
   AccountType.ROTH_401K, AccountType.ROTH_IRA,
   AccountType.TAXABLE, AccountType.HSA]

namespace AccountPortfolio

/-- Pointwise update of the accounts dict at one key. -/
def set (p : AccountPortfolio) (t : AccountType) (a : AccountBalance) :
    AccountPortfolio :=
  fun s => if s = t then some a else p s

/-- `AccountPortfolio.add_account` (lines 41-57) with an explicit cost basis
(the Python `cost_basis=None` default is `balance`; callers in the modelled
core always pass it explicitly or are modelled with it filled in). -/
def add_account (p : AccountPortfolio) (t : AccountType)
    (balance cost_basis : ℚ) : AccountPortfolio :=
  p.set t (mkAccountBalance balance cost_basis)

/-- `AccountPortfolio.get_balance` (lines 59-63): 0 for an absent type. -/
def get_balance (p : AccountPortfolio) (t : AccountType) : ℚ :=
  match p t with
  | some a => a.balance
  | none => 0

/-- `AccountPortfolio.get_cost_basis` (lines 69-73): 0 for an absent type. -/
def get_cost_basis (p : AccountPortfolio) (t : AccountType) : ℚ :=
  match p t with
  | some a => a.cost_basis
  | none => 0

/-- `AccountPortfolio.get_total_balance` (lines 65-67): the sum of the
balances of the present accounts (absent types contribute 0). -/
def get_total_balance (p : AccountPortfolio) : ℚ :=
  (allAccountTypes.map fun t => p.get_balance t).sum

/-- `AccountPortfolio.update_balance` (lines 75-78): no-op if the type is
absent; clamps the new balance to `≥ 0`; does not touch the cost basis. -/
def update_balance (p : AccountPortfolio) (t : AccountType) (new_balance : ℚ) :
    AccountPortfolio :=
  fun s =>
    if s = t then (p t).map fun a => { a with balance := max 0 new_balance }
    else p s

/-- `AccountPortfolio.update_cost_basis` (lines 80-84): no-op if the type is
absent; clamps the new basis to `[0, balance]`. -/
def update_cost_basis (p : AccountPortfolio) (t : AccountType) (new_basis : ℚ) :
    AccountPortfolio :=
  fun s =>
    if s = t then
      (p t).map fun a => { a with cost_basis := max 0 (min new_basis a.balance) }
    else p s

/-- `AccountPortfolio.apply_growth` (lines 86-91): every present account's
balance grows by `balance * growth_rate`; cost bases are unchanged. -/
def apply_growth (p : AccountPortfolio) (growth_rate : ℚ) : AccountPortfolio :=
  fun s => (p s).map fun a => { a with balance := a.balance + a.balance * growth_rate }

/-- `AccountPortfolio.deposit` (lines 93-110): ignore a non-positive amount;
create the account with zero balance and basis if absent; add the amount to
both the balance and the cost basis. -/
def deposit (p : AccountPortfolio) (t : AccountType) (amount : ℚ) :
    AccountPortfolio :=
  if amount ≤ 0 then p
  else
    match p t with
    | none => p.set t { balance := 0 + amount, cost_basis := 0 + amount }
    | some a => p.set t { balance := a.balance + amount, cost_basis := a.cost_basis + amount }

end AccountPortfolio

/-- One mutating portfolio call, for stating the portfolio invariant over
call sequences: `deposit`, `update_balance` (the spec's `setBalance`) or
`apply_growth`. -/
inductive PortfolioOp where
  | deposit (t : AccountType) (amount : ℚ)
  | setBalance (t : AccountType) (new_balance : ℚ)
  | applyGrowth (growth_rate : ℚ)

/-- Run one portfolio call. -/
def runOp (p : AccountPortfolio) : PortfolioOp → AccountPortfolio
  | PortfolioOp.deposit t amount => p.deposit t amount
  | PortfolioOp.setBalance t nb => p.update_balance t nb
  | PortfolioOp.applyGrowth r => p.apply_growth r

/-- Run a sequence of portfolio calls in order. -/
def runOps (p : AccountPortfolio) (ops : List PortfolioOp) : AccountPortfolio :=
  ops.foldl runOp p

/-- Every present account of the portfolio has a non-negative balance and a
non-negative cost basis. -/
def PortfolioNonneg (p : AccountPortfolio) : Prop :=
  ∀ t a, p t = some a → 0 ≤ a.balance ∧ 0 ≤ a.cost_basis

/-- An op whose growth rate cannot turn a positive balance negative:
`apply_growth` multiplies each balance by `1 + rate`. -/
def OpGrowthBounded : PortfolioOp → Prop
  | PortfolioOp.applyGrowth r => -1 ≤ r
  | _ => True

namespace TaxCalculator

/-- `FEDERAL_BRACKETS_SINGLE` (`tax_calculator.py` lines 13-21) without its
final `(inf, 0.37)` entry, which is modelled by `topFederalRate`. -/
def FEDERAL_BRACKETS_SINGLE : List (ℚ × ℚ) :=
  [(11600, 10/100), (47150, 12/100), (100525, 22/100),
   (191950, 24/100), (243725, 32/100), (609350, 35/100)]

/-- `FEDERAL_BRACKETS_JOINT` (lines 24-32) without its final `(inf, 0.37)`
entry, which is modelled by `topFederalRate`. -/
def FEDERAL_BRACKETS_JOINT : List (ℚ × ℚ) :=
  [(23200, 10/100), (94300, 12/100), (201050, 22/100),
   (383900, 24/100), (487450, 32/100), (731200, 35/100)]

/-- The rate of the unbounded top federal bracket, `(float('inf'), 0.37)`. -/
def topFederalRate : ℚ := 37/100

/-- `CAPITAL_GAINS_BRACKETS_JOINT` (lines 35-39) without its final
`(inf, 0.20)` entry, which is modelled by `topCapitalGainsRate`. -/
def CAPITAL_GAINS_BRACKETS_JOINT : List (ℚ × ℚ) :=
  [(94050, 0), (583750, 15/100)]

/-- `CAPITAL_GAINS_BRACKETS_SINGLE` (lines 42-46) without its final
`(inf, 0.20)` entry, which is modelled by `topCapitalGainsRate`. -/
def CAPITAL_GAINS_BRACKETS_SINGLE : List (ℚ × ℚ) :=
  [(47025, 0), (518900, 15/100)]

/-- The rate of the unbounded top capital-gains bracket, `(inf, 0.20)`. -/
def topCapitalGainsRate : ℚ := 20/100

/-- `STANDARD_DEDUCTION_SINGLE` (line 49). -/
def STANDARD_DEDUCTION_SINGLE : ℚ := 14600

/-- `STANDARD_DEDUCTION_JOINT` (line 50). -/
def STANDARD_DEDUCTION_JOINT : ℚ := 29200

/-- The loop of `calculate_federal_income_tax` (lines 87-96): walk the
brackets with the previous bracket limit in `prev`; the first bracket whose
limit is at least the taxable income receives `(ti - prev) * rate` and the
loop breaks; a crossed bracket contributes `(limit - prev) * rate`.  The
empty list is the `(float('inf'), topRate)` bracket, which always catches. -/
def bracketTax (topRate : ℚ) : List (ℚ × ℚ) → ℚ → ℚ → ℚ
  | [], prev, ti => (ti - prev) * topRate
  | (lim, r) :: rest, prev, ti =>
      if ti ≤ lim then (ti - prev) * r
      else (lim - prev) * r + bracketTax topRate rest lim ti

/-- `TaxCalculator.calculate_federal_income_tax` (lines 67-98). -/
def calculate_federal_income_tax (income : ℚ) (filing_jointly : Bool) : ℚ :=
  let brackets := if filing_jointly then FEDERAL_BRACKETS_JOINT else FEDERAL_BRACKETS_SINGLE
  let standard_deduction :=
    if filing_jointly then STANDARD_DEDUCTION_JOINT else STANDARD_DEDUCTION_SINGLE
  let taxable_income := max 0 (income - standard_deduction)
  if taxable_income ≤ 0 then 0
  else bracketTax topFederalRate brackets 0 taxable_income

/-- The loop of `calculate_capital_gains_tax` (lines 126-146), with state
`(tax, remaining_gains, taxable_ordinary_income)` and the previous bracket
limit in `prev`.  A bracket already filled by ordinary income is skipped;
otherwise the gains that fit in it are taxed at its rate and the loop breaks
once no gains remain.  The empty list is the `(inf, topRate)` bracket: its
top is never reached by the income floor and it absorbs all remaining
gains. -/
def capitalGainsLoop (topRate : ℚ) :
    List (ℚ × ℚ) → ℚ → ℚ → ℚ → ℚ → ℚ
  | [], _prev, tax, rem, _toi => if 0 < rem then tax + rem * topRate else tax
  | (lim, r) :: rest, prev, tax, rem, toi =>
      let bottom := max prev toi
      if lim ≤ bottom then capitalGainsLoop topRate rest lim tax rem toi
      else
        let g := min rem (lim - bottom)
        let tax' := if 0 < g then tax + g * r else tax
        let rem' := if 0 < g then rem - g else rem
        let toi' := if 0 < g then toi + g else toi
        if rem' ≤ 0 then tax' else capitalGainsLoop topRate rest lim tax' rem' toi'

/-- `TaxCalculator.calculate_capital_gains_tax` (lines 100-148). -/
def calculate_capital_gains_tax (gains ordinary_income : ℚ)
    (filing_jointly : Bool) : ℚ :=
  if gains ≤ 0 then 0
  else
    let brackets :=
      if filing_jointly then CAPITAL_GAINS_BRACKETS_JOINT else CAPITAL_GAINS_BRACKETS_SINGLE
    let standard_deduction :=
      if filing_jointly then STANDARD_DEDUCTION_JOINT else STANDARD_DEDUCTION_SINGLE
    let taxable_ordinary_income := max 0 (ordinary_income - standard_deduction)
    capitalGainsLoop topCapitalGainsRate brackets 0 0 gains taxable_ordinary_income

/-- The ceiling of the 0% capital-gains bracket for a filing status: the
first limit of the status's bracket table. -/
def zeroBracketCeiling (filing_jointly : Bool) : ℚ :=
  (((if filing_jointly then CAPITAL_GAINS_BRACKETS_JOINT
     else CAPITAL_GAINS_BRACKETS_SINGLE).headD (0, 0))).1

/-- `STATE_TAX_RATES` (lines 53-65). -/
def STATE_TAX_RATES : List (String × ℚ) :=
  [("California", 93/1000), ("New York", 685/10000), ("Texas", 0),
   ("Florida", 0), ("Illinois", 495/10000), ("Massachusetts", 5/100),
   ("Washington", 0), ("Colorado", 44/1000), ("Oregon", 99/1000),
   ("New Jersey", 637/10000), ("None", 0)]

/-- `TaxCalculator.calculate_state_tax` (lines 150-163): flat rate looked up
by state name, 0 for an unknown name. -/
def calculate_state_tax (income : ℚ) (state : String) : ℚ :=
  income * (((STATE_TAX_RATES.find? fun pr => pr.1 = state).map Prod.snd).getD 0)

/-- `TaxCalculator.calculate_fica_tax` (lines 165-192).  The `age` argument
exists in the source signature and is unused there too. -/
def calculate_fica_tax (income : ℚ) (_age : ℕ) : ℚ :=
  let ss_wage_base : ℚ := 168600
  let ss_rate : ℚ := 62/1000
  let medicare_rate : ℚ := 145/10000
  let additional_medicare_threshold : ℚ := 200000
  let additional_medicare_rate : ℚ := 9/1000
  let ss_tax := min income ss_wage_base * ss_rate
  let medicare_tax := income * medicare_rate
  let medicare_tax' :=
    if additional_medicare_threshold < income then
      medicare_tax + (income - additional_medicare_threshold) * additional_medicare_rate
    else medicare_tax
  ss_tax + medicare_tax'

/-- The `breakdown` dict returned by `calculate_total_tax` (lines 224-230). -/
structure TaxBreakdown where
  federal_income : ℚ
  capital_gains : ℚ
  state : ℚ
  fica : ℚ
  total : ℚ
deriving Repr

/-- `TaxCalculator.calculate_total_tax` (lines 194-232): the four components
(FICA zeroed when not working), state tax on ordinary income plus gains
combined, returned as `(total, breakdown)`. -/
def calculate_total_tax (ordinary_income capital_gains : ℚ) (state : String)
    (filing_jointly : Bool) (age : ℕ) (is_working : Bool) : ℚ × TaxBreakdown :=
  let federal_income_tax := calculate_federal_income_tax ordinary_income filing_jointly
  let capital_gains_tax :=
    calculate_capital_gains_tax capital_gains ordinary_income filing_jointly
  let state_tax := calculate_state_tax (ordinary_income + capital_gains) state
  let fica_tax := if is_working then calculate_fica_tax ordinary_income age else 0
  let total_tax := federal_income_tax + capital_gains_tax + state_tax + fica_tax
  (total_tax,
   { federal_income := federal_income_tax, capital_gains := capital_gains_tax,
     state := state_tax, fica := fica_tax, total := total_tax })

end TaxCalculator

/-- The `withdrawals` dict built by `calculate_withdrawal`: per-account
amounts, `none` = account absent from the dict. -/
def WithdrawalMap := AccountType → Option ℚ

/-- The empty withdrawals dict (`withdrawals = {}`, line 145). -/
def emptyWithdrawals : WithdrawalMap := fun _ => none

/-- Dict assignment `withdrawals[t] = v`. -/
def setWithdrawal (w : WithdrawalMap) (t : AccountType) (v : ℚ) : WithdrawalMap :=
  fun s => if s = t then some v else w s

namespace AccountPortfolio

/-- `get_balance` as a state transformer: the method's body (lines 59-63)
only reads `self.accounts`, so the portfolio comes back unchanged. -/
def get_balanceS (p : AccountPortfolio) (t : AccountType) : ℚ × AccountPortfolio :=
  (p.get_balance t, p)

/-- `get_cost_basis` as a state transformer: the method's body (lines 69-73)
only reads `self.accounts`, so the portfolio comes back unchanged. -/
def get_cost_basisS (p : AccountPortfolio) (t : AccountType) : ℚ × AccountPortfolio :=
  (p.get_cost_basis t, p)

end AccountPortfolio

/-- The `gains_ratio` expression of `calculate_withdrawal` (line 193):
`max(0, (balance - cost_basis) / balance) if balance > 0 else 0`. -/
def gainsFraction (available_balance cost_basis : ℚ) : ℚ :=
  if 0 < available_balance then max 0 ((available_balance - cost_basis) / available_balance)
  else 0

namespace WithdrawalStrategy

/-- The IRS Uniform Lifetime divisor dict of `_calculate_rmd`
(`account_types.py` lines 275-282), with its `.get(age, 6.4)` default. -/
def distributionPeriod (age : ℕ) : ℚ :=
  match age with
  | 73 => 53/2 | 74 => 51/2 | 75 => 123/5 | 76 => 237/10 | 77 => 229/10
  | 78 => 22 | 79 => 211/10 | 80 => 101/5 | 81 => 97/5 | 82 => 37/2
  | 83 => 177/10 | 84 => 84/5 | 85 => 16 | 86 => 76/5 | 87 => 72/5
  | 88 => 137/10 | 89 => 129/10 | 90 => 61/5 | 91 => 23/2 | 92 => 54/5
  | 93 => 101/10 | 94 => 19/2 | 95 => 89/10 | 96 => 42/5 | 97 => 39/5
  | 98 => 73/10 | 99 => 34/5 | _ => 32/5

/-- The guarded division of `_calculate_rmd` (line 290):
`traditional_balance / distribution_period if distribution_period > 0 else 0`. -/
def guardedRMD (traditional_balance distribution_period : ℚ) : ℚ :=
  if 0 < distribution_period then traditional_balance / distribution_period else 0

/-- `WithdrawalStrategy._calculate_rmd` (lines 257-290) as a state
transformer over the portfolio it reads. -/
def calculate_rmdS (p : AccountPortfolio) (age : ℕ) : ℚ × AccountPortfolio :=
  if age < 73 then (0, p)
  else
    let (b1, p1) := p.get_balanceS AccountType.TRADITIONAL_401K
    let (b2, p2) := p1.get_balanceS AccountType.TRADITIONAL_IRA
    (guardedRMD (b1 + b2) (distributionPeriod age), p2)

/-- `_calculate_rmd` as the plain value it returns. -/
def calculate_rmd (p : AccountPortfolio) (age : ℕ) : ℚ :=
  (calculate_rmdS p age).1

/-- State of the RMD pre-pass of `calculate_withdrawal` (lines 160-178):
the withdrawals dict, `total_ordinary_withdrawals`, `rmd_remaining` and
`remaining_needed`. -/
structure RmdState where
  w : WithdrawalMap
  totOrd : ℚ
  rmdRem : ℚ
  remaining : ℚ

/-- The RMD pre-pass loop (lines 168-178) over `traditional_types`, threading
the portfolio: break once `rmd_remaining ≤ 0`; from each traditional account
with a positive balance take `min(rmd_remaining, available)`, accumulating it
into the withdrawals dict (`withdrawals.get(acc_type, 0) + withdrawal`). -/
def rmdLoop : List AccountType → RmdState × AccountPortfolio →
    RmdState × AccountPortfolio
  | [], sp => sp
  | t :: rest, (s, p) =>
      if s.rmdRem ≤ 0 then (s, p)
      else
        let (available, p1) := p.get_balanceS t
        if 0 < available then
          let withdrawal := min s.rmdRem available
          rmdLoop rest
            ({ w := setWithdrawal s.w t (((s.w t).getD 0) + withdrawal),
               totOrd := s.totOrd + withdrawal,
               rmdRem := s.rmdRem - withdrawal,
               remaining := s.remaining - withdrawal }, p1)
        else rmdLoop rest (s, p1)


/-- State of the main ordering pass of `calculate_withdrawal` (lines
145-148, 181-236): the withdrawals dict, `remaining_needed`,
`total_capital_gains` and `total_ordinary_withdrawals`. -/
structure MainState where
  w : WithdrawalMap
  remaining : ℚ
  totCG : ℚ
  totOrd : ℚ

/-- The Traditional-401k/IRA branch of the main pass (lines 214-230):
estimate the marginal rate, gross up the remaining need, cap at the
available balance, assign the gross into the dict (plain assignment,
line 228) and reduce the remaining need by the after-tax portion. -/
def traditionalStep (ordinary_income : ℚ) (filing_jointly : Bool)
    (t : AccountType) (available_balance : ℚ) (s : MainState) : MainState :=
  let test_income := ordinary_income + s.totOrd + 10000
  let test_tax := TaxCalculator.calculate_federal_income_tax test_income filing_jointly
  let base_tax := TaxCalculator.calculate_federal_income_tax
    (ordinary_income + s.totOrd) filing_jointly
  let marginal_rate := (test_tax - base_tax) / 10000
  let gross_needed := s.remaining / (1 - marginal_rate)
  let gross_withdrawal := min gross_needed available_balance
  { s with
      w := setWithdrawal s.w t gross_withdrawal,
      totOrd := s.totOrd + gross_withdrawal,
      remaining := s.remaining - gross_withdrawal * (1 - marginal_rate) }

/-- `withdrawal_order` (lines 151-158). -/
def withdrawalOrder : List AccountType :=
  [AccountType.TAXABLE, AccountType.HSA,
   AccountType.TRADITIONAL_401K, AccountType.TRADITIONAL_IRA,
   AccountType.ROTH_401K, AccountType.ROTH_IRA]

/-- The main ordering pass (lines 181-236), threading the portfolio through
each read.  Break once `remaining_needed ≤ 0`; skip an account with no
positive balance; the Taxable branch grosses up by 1.5, nets out the
estimated capital-gains tax and records the gross only when the net is
positive; the Traditional branch estimates the marginal rate from a 10000
income bump, grosses the remaining need up by `1/(1 - marginal_rate)` and
assigns (not accumulates) the gross into the dict; Roth and HSA withdraw
`min(remaining_needed, available)` tax-free. -/
def mainLoop (ordinary_income : ℚ) (filing_jointly : Bool) :
    List AccountType → MainState × AccountPortfolio →
    MainState × AccountPortfolio
  | [], sp => sp
  | t :: rest, (s, p) =>
      if s.remaining ≤ 0 then (s, p)
      else
        let (available_balance, p1) := p.get_balanceS t
        if available_balance ≤ 0 then mainLoop ordinary_income filing_jointly rest (s, p1)
        else
          match t with
          | AccountType.TAXABLE =>
              let (cost_basis, p2) := p1.get_cost_basisS AccountType.TAXABLE
              let gains_ratio := gainsFraction available_balance cost_basis
              let gross_withdrawal := min (s.remaining * (3/2)) available_balance
              let capital_gains := gross_withdrawal * gains_ratio
              let cg_tax := TaxCalculator.calculate_capital_gains_tax capital_gains
                (ordinary_income + s.totOrd) filing_jointly
              let net_withdrawal := gross_withdrawal - cg_tax
              if 0 < net_withdrawal then
                mainLoop ordinary_income filing_jointly rest
                  ({ s with
                      w := setWithdrawal s.w AccountType.TAXABLE gross_withdrawal,
                      totCG := s.totCG + capital_gains,
                      remaining := s.remaining - net_withdrawal }, p2)
              else mainLoop ordinary_income filing_jointly rest (s, p2)
          | AccountType.TRADITIONAL_401K =>
              mainLoop ordinary_income filing_jointly rest
                (traditionalStep ordinary_income filing_jointly
                  AccountType.TRADITIONAL_401K available_balance s, p1)
          | AccountType.TRADITIONAL_IRA =>
              mainLoop ordinary_income filing_jointly rest
                (traditionalStep ordinary_income filing_jointly
                  AccountType.TRADITIONAL_IRA available_balance s, p1)
          | _ =>
              let withdrawal := min s.remaining available_balance
              mainLoop ordinary_income filing_jointly rest
                ({ s with
                    w := setWithdrawal s.w t withdrawal,
                    remaining := s.remaining - withdrawal }, p1)


/-- `WithdrawalStrategy.calculate_withdrawal` (lines 116-255), threading the
portfolio through every portfolio-method call it makes: the RMD pre-pass at
age 73+, the main ordering pass, then the final tax tally (capital-gains tax
on the accumulated gains at the original ordinary income, plus the marginal
federal block attributable to the ordinary withdrawals).  Returns
`((withdrawals, total_withdrawal_tax), portfolio after the call)`. -/
def calculate_withdrawal (p : AccountPortfolio) (amount_needed : ℚ) (age : ℕ)
    (ordinary_income : ℚ) (filing_jointly : Bool) :
    (WithdrawalMap × ℚ) × AccountPortfolio :=
  let s0 : MainState :=
    { w := emptyWithdrawals, remaining := amount_needed, totCG := 0, totOrd := 0 }
  let sp1 : MainState × AccountPortfolio :=
    if 73 ≤ age then
      let ra := calculate_rmdS p age
      if 0 < ra.1 then
        let rb := rmdLoop
          [AccountType.TRADITIONAL_401K, AccountType.TRADITIONAL_IRA]
          ({ w := s0.w, totOrd := s0.totOrd, rmdRem := ra.1,
             remaining := s0.remaining }, ra.2)
        (({ w := rb.1.w, remaining := rb.1.remaining, totCG := s0.totCG,
            totOrd := rb.1.totOrd } : MainState), rb.2)
      else (s0, ra.2)
    else (s0, p)
  let sp2 := mainLoop ordinary_income filing_jointly withdrawalOrder sp1
  let capital_gains_tax :=
    if 0 < sp2.1.totCG then
      TaxCalculator.calculate_capital_gains_tax sp2.1.totCG ordinary_income filing_jointly
    else 0
  let ordinary_tax :=
    if 0 < sp2.1.totOrd then
      TaxCalculator.calculate_federal_income_tax (ordinary_income + sp2.1.totOrd) filing_jointly
        - TaxCalculator.calculate_federal_income_tax ordinary_income filing_jointly
    else 0
  ((sp2.1.w, capital_gains_tax + ordinary_tax), sp2.2)

/-- The withdrawals dict returned by `calculate_withdrawal`. -/
def withdrawalsOf (p : AccountPortfolio) (amount_needed : ℚ) (age : ℕ)
    (ordinary_income : ℚ) (filing_jointly : Bool) : WithdrawalMap :=
  (calculate_withdrawal p amount_needed age ordinary_income filing_jointly).1.1

end WithdrawalStrategy

/-- The capital-gains reporting computation of `calculate_forecast`
(`retirement_calculator.py` lines 255-262): with `taxable_balance_before`
reconstructed from the post-withdrawal balance, the realized gains are
`taxable_withdrawal * max(0, (before - cost_basis) / before)` when the
pre-withdrawal balance is positive, and 0 otherwise (no division). -/
def forecastCapitalGains (taxable_balance_before cost_basis taxable_withdrawal : ℚ) : ℚ :=
  if 0 < taxable_balance_before then
    taxable_withdrawal * max 0 ((taxable_balance_before - cost_basis) / taxable_balance_before)
  else 0

/-- Applying the returned withdrawals to the portfolio (lines 247-250):
for each account in the withdrawals dict, `update_balance(current - amount)`.
The per-account updates are independent, so iterating the six types stands in
for the dict's iteration order. -/
def applyWithdrawals (p : AccountPortfolio) (w : WithdrawalMap) : AccountPortfolio :=
  allAccountTypes.foldl
    (fun q t =>
      match w t with
      | some amount => q.update_balance t (q.get_balance t - amount)
      | none => q) p

/-- `Person` (`retirement_calculator.py` lines 14-45), without the `name`
field (never read by the core). -/
structure Person where
  age : ℕ
  retirement_age : ℕ
  current_income : ℚ
  income_growth_rate : ℚ
  retirement_income : ℚ
  annual_rsu_vesting : ℚ

/-- `Person.get_income` (lines 47-66): before retirement age the salary and
RSU vesting grow at the income growth rate compounded over the offset and
the person is working; after it the pension income alone. -/
def Person.get_income (pr : Person) (year_offset : ℕ) : ℚ × ℚ × Bool :=
  if pr.age + year_offset < pr.retirement_age then
    (pr.current_income * (1 + pr.income_growth_rate) ^ year_offset,
     pr.annual_rsu_vesting * (1 + pr.income_growth_rate) ^ year_offset, true)
  else (pr.retirement_income, 0, false)

/-- The per-year income accumulation of `calculate_forecast` (lines
160-172): total cash income, total RSU vesting, whether anyone is working,
and the oldest age (starting from 0). -/
structure IncomeAcc where
  cash : ℚ
  rsu : ℚ
  working : Bool
  oldest : ℕ

/-- The loop over `self.people` (lines 166-172). -/
def incomeFold (people : List Person) (year : ℕ) : IncomeAcc :=
  people.foldl
    (fun acc pr =>
      let ci := pr.get_income year
      { cash := acc.cash + ci.1, rsu := acc.rsu + ci.2.1,
        working := acc.working || ci.2.2,
        oldest := max acc.oldest (pr.age + year) })
    { cash := 0, rsu := 0, working := false, oldest := 0 }

/-- The configuration held by `RetirementCalculator` (lines 72-140) that
`calculate_forecast` reads.  One-time expenses are `(year, amount)` pairs;
the contribution allocation maps account-name strings to fractions. -/
structure CalcConfig where
  people : List Person
  annual_expenses : ℚ
  expense_growth_rate : ℚ
  investment_return_rate : ℚ
  state : String
  additional_contributions : ℚ
  social_security_age : ℕ
  social_security_benefit : ℚ
  contribution_allocation : List (String × ℚ)
  one_time_expenses : List (Int × ℚ)

/-- `self.filing_jointly = len(people) > 1` (line 116). -/
def CalcConfig.filing_jointly (cfg : CalcConfig) : Bool :=
  decide (1 < cfg.people.length)

/-- One row of the forecast DataFrame (lines 285-313), restricted to the
fields the verified properties read: `Year`, `Age`, `Working`,
`Assets (Nominal)` (clamped at 0, lines 267-269), `Total Tax` and
`Capital Gains`. -/
structure YearRecord where
  year : Int
  age : ℕ
  working : Bool
  assets : ℚ
  total_tax : ℚ
  capital_gains : ℚ

/-- The contribution branch of the per-year loop (lines 222-232): for each
allocation entry with a positive percentage, deposit `cash_flow * pct` into
the parsed account type, falling back to Taxable when the name is not a
valid `AccountType` (the `try`/`except` at lines 226-232). -/
def contributionDeposits (p : AccountPortfolio) (allocation : List (String × ℚ))
    (cash_flow : ℚ) : AccountPortfolio :=
  allocation.foldl
    (fun q al =>
      if (0 : ℚ) < al.2 then
        match parseAccountType al.1 with
        | some t => q.deposit t (cash_flow * al.2)
        | none => q.deposit AccountType.TAXABLE (cash_flow * al.2)
      else q) p

/-- Assembling the year's row and returning the end-of-year portfolio
(lines 264-313): total assets are clamped to `≥ 0` before being stored. -/
def forecastFinish (current_year : Int) (oldest : ℕ) (working : Bool)
    (total_tax capital_gains : ℚ) (pf : AccountPortfolio) :
    YearRecord × AccountPortfolio :=
  let assets0 := pf.get_total_balance
  let assets := if assets0 < 0 then 0 else assets0
  ({ year := current_year, age := oldest, working := working, assets := assets,
     total_tax := total_tax, capital_gains := capital_gains }, pf)

/-- One iteration of the `calculate_forecast` year loop (lines 157-313):
income accrual, Social Security, expense growth plus one-time expenses,
portfolio growth, ordinary-income tax, cash-flow dispatch (deposits on a
surplus, the withdrawal strategy plus `update_balance` application and
capital-gains reporting on a shortfall), then the clamped snapshot.
`datetime.now().year` is the explicit `startYear`. -/
def forecastStep (cfg : CalcConfig) (startYear : Int) (year : ℕ)
    (p : AccountPortfolio) : YearRecord × AccountPortfolio :=
  let current_year : Int := startYear + year
  let inc := incomeFold cfg.people year
  let social_security_income : ℚ :=
    if cfg.social_security_age ≤ inc.oldest then cfg.social_security_benefit else 0
  let total_ordinary_income := inc.cash + inc.rsu + social_security_income
  let expenses := cfg.annual_expenses * (1 + cfg.expense_growth_rate) ^ year +
    ((cfg.one_time_expenses.filter fun e => e.1 = current_year).map Prod.snd).sum
  let p1 := p.apply_growth cfg.investment_return_rate
  let bd := (TaxCalculator.calculate_total_tax total_ordinary_income 0 cfg.state
    cfg.filing_jointly inc.oldest inc.working).2
  let total_tax := bd.total
  let net_income := total_ordinary_income - total_tax
  let cash_flow := net_income + cfg.additional_contributions - expenses
  if 0 < cash_flow then
    forecastFinish current_year inc.oldest inc.working total_tax 0
      (contributionDeposits p1 cfg.contribution_allocation cash_flow)
  else if cash_flow < 0 then
    let res := WithdrawalStrategy.calculate_withdrawal p1 (-cash_flow) inc.oldest
      total_ordinary_income cfg.filing_jointly
    let p2 := applyWithdrawals p1 res.1.1
    let total_tax2 := total_tax + res.1.2
    let capital_gains :=
      match res.1.1 AccountType.TAXABLE with
      | some tw =>
          forecastCapitalGains (p2.get_balance AccountType.TAXABLE + tw)
            (p2.get_cost_basis AccountType.TAXABLE) tw
      | none => 0
    forecastFinish current_year inc.oldest inc.working total_tax2 capital_gains p2
  else
    forecastFinish current_year inc.oldest inc.working total_tax 0 p1

/-- The `for year in range(years)` loop of `calculate_forecast` with its
early exit: each iteration appends its row, and once a row's clamped assets
are `≤ 0` no further iteration runs (lines 315-317). -/
def forecastAux (cfg : CalcConfig) (startYear : Int) :
    ℕ → ℕ → AccountPortfolio → List YearRecord
  | 0, _, _ => []
  | n + 1, year, p =>
      let rp := forecastStep cfg startYear year p
      rp.1 :: (if rp.1.assets ≤ 0 then [] else forecastAux cfg startYear n (year + 1) rp.2)

/-- `RetirementCalculator.calculate_forecast` (lines 142-319) on the given
starting portfolio and start year. -/
def calculate_forecast (cfg : CalcConfig) (p0 : AccountPortfolio)
    (startYear : Int) (years : ℕ) : List YearRecord :=
  forecastAux cfg startYear years 0 p0

/-- The `assets_depleted` flag of `calculate_summary_metrics` (lines
354-355): the last row's nominal assets `≤ 0` (`false` on an empty
forecast, where the summary is the empty dict). -/
def assetsDepleted (records : List YearRecord) : Bool :=
  match records.getLast? with
  | some r => decide (r.assets ≤ 0)
  | none => false

/-- The forecast-shape property: strictly increasing years, at most the
requested horizon, every non-final row has positive assets (the loop stops
once a row's clamped assets reach zero), the sequence is non-empty, and the
last row's assets are `≤ 0` exactly when the summary's depletion flag is
set. -/
def ForecastSpec (records : List YearRecord) (years : ℕ) : Prop :=
  List.Chain' (fun a b => a.year < b.year) records ∧
  records.length ≤ years ∧
  (∀ i r, i + 1 < records.length → records[i]? = some r → 0 < r.assets) ∧
  records ≠ [] ∧
  ∀ r, records.getLast? = some r → (r.assets ≤ 0 ↔ assetsDepleted records = true)

/-- One iteration of the explicit-balance loop of
`RetirementCalculator.__init__` (lines 123-127): construct the
`AccountType` from the name string (`ValueError` on an unknown name), then
add the account with cost basis at 80% of balance for Taxable and at full
balance otherwise. -/
def initAccountStep (p : AccountPortfolio) (nb : String × ℚ) :
    Except String AccountPortfolio :=
  match parseAccountType nb.1 with
  | some t =>
      Except.ok (p.add_account t nb.2
        (if t = AccountType.TAXABLE then nb.2 * (8/10) else nb.2))
  | none => Except.error ("ValueError: not a valid AccountType: " ++ nb.1)

/-- The portfolio construction of `RetirementCalculator.__init__` (lines
118-130): with explicit balances, each account-name string is constructed
into an `AccountType` — an unknown name raises `ValueError` — and a Taxable
account starts with cost basis at 80% of balance, others at full balance;
with no explicit balances (`None` or empty, both falsy), everything goes to
one Taxable account at 80% cost basis. -/
def initPortfolio (initial_assets : ℚ) (account_balances : List (String × ℚ)) :
    Except String AccountPortfolio :=
  if account_balances.isEmpty then
    Except.ok (emptyPortfolio.add_account AccountType.TAXABLE initial_assets
      (initial_assets * (8/10)))
  else
    account_balances.foldlM initAccountStep emptyPortfolio

/-- `RetirementCalculator.__init__` (lines 72-140) restricted to everything
it validates: the portfolio construction may raise on an unknown
account-type string; the contribution allocation is stored as given
(defaulting to all-Taxable when empty/None, line 133) with no validation of
its sum. -/
def initCalculator (initial_assets : ℚ)
    (account_balances contribution_allocation : List (String × ℚ)) :
    Except String (AccountPortfolio × List (String × ℚ)) :=
  match initPortfolio initial_assets account_balances with
  | Except.ok p =>
      Except.ok (p,
        if contribution_allocation.isEmpty then [("taxable", 1)]
        else contribution_allocation)
  | Except.error e => Except.error e

/-- The constructor call `AccountPortfolio(self.initial_assets,
self.account_balances)` at `retirement_calculator.py` line 411:
`AccountPortfolio.__init__` (`account_types.py` line 37) accepts no
arguments besides `self`, so this call raises `TypeError` on every input. -/
def accountPortfolioCtorWithArgs (_initial_assets : ℚ)
    (_account_balances : List (String × ℚ)) : Except String AccountPortfolio :=
  Except.error "TypeError: AccountPortfolio() takes no further arguments"

/-- `RetirementCalculator.run_monte_carlo_simulation` (lines 372-526), up to
its first raising statement.  Every trial's body begins by constructing
`AccountPortfolio(self.initial_assets, self.account_balances)` (line 411),
which raises `TypeError` (the constructor takes no arguments); with zero
iterations the aggregation takes `max()` of the empty `simulations` list
(line 500), which raises `ValueError`.  Either way the percentile table and
success rate (lines 498-519) are never computed, so the rest of the body is
not modelled: it is unreachable. -/
def run_monte_carlo_simulation (_years iterations : ℕ) (initial_assets : ℚ)
    (account_balances : List (String × ℚ)) : Except String Unit :=
  match iterations with
  | 0 => Except.error "ValueError: max() arg is an empty sequence"
  | _ + 1 =>
      match accountPortfolioCtorWithArgs initial_assets account_balances with
      | Except.ok _ => Except.ok ()
      | Except.error e => Except.error e

/-- The withdrawals dict stays within the portfolio's pre-call balances:
every account present in the dict is assigned at most that account's
balance. -/
def WithinBalances (p : AccountPortfolio) (w : WithdrawalMap) : Prop :=
  ∀ t v, w t = some v → v ≤ p.get_balance t

/-- A portfolio holding one Traditional 401k of 530000: its RMD at age 73 is
`530000 / 26.5 = 20000`. -/
def pRMD : AccountPortfolio :=
  emptyPortfolio.add_account AccountType.TRADITIONAL_401K 530000 530000

/-- A portfolio holding one Roth IRA of 100. -/
def pRoth : AccountPortfolio :=
  emptyPortfolio.add_account AccountType.ROTH_IRA 100 100

/-- A portfolio holding one Taxable account with balance 100 and cost basis
100 (as `add_account(TAXABLE, 100, 100)` builds it). -/
def pTaxable100 : AccountPortfolio :=
  emptyPortfolio.add_account AccountType.TAXABLE 100 100

/-- A minimal configuration: no people, no income, no expenses, no
contributions. -/
def cfg0 : CalcConfig :=
  { people := [], annual_expenses := 0, expense_growth_rate := 0,
    investment_return_rate := 0, state := "None", additional_contributions := 0,
    social_security_age := 67, social_security_benefit := 0,
    contribution_allocation := [("taxable", 1)], one_time_expenses := [] }

/-! ## Theorems -/

namespace WithdrawalStrategy

/-- `_calculate_rmd` only reads the portfolio. -/
theorem calculate_rmdS_portfolio (p : AccountPortfolio) (age : ℕ) :
    (calculate_rmdS p age).2 = p := by
  unfold calculate_rmdS AccountPortfolio.get_balanceS
  split <;> rfl

/-- The RMD pre-pass only reads the portfolio. -/
theorem rmdLoop_portfolio (l : List AccountType) (sp : RmdState × AccountPortfolio) :
    (rmdLoop l sp).2 = sp.2 := by
  induction l generalizing sp with
  | nil => rfl
  | cons t rest ih =>
      obtain ⟨s, p⟩ := sp
      simp only [rmdLoop, AccountPortfolio.get_balanceS]
      split
      · rfl
      · split
        · exact ih ..
        · exact ih ..

/-- The main ordering pass only reads the portfolio. -/
theorem mainLoop_portfolio (oi : ℚ) (fj : Bool) (l : List AccountType)
    (sp : MainState × AccountPortfolio) :
    (mainLoop oi fj l sp).2 = sp.2 := by
  induction l generalizing sp with
  | nil => rfl
  | cons t rest ih =>
      obtain ⟨s, p⟩ := sp
      cases t <;>
        simp only [mainLoop, AccountPortfolio.get_balanceS,
          AccountPortfolio.get_cost_basisS] <;>
        split <;> try rfl
      all_goals repeat' split
      all_goals rw [ih]

end WithdrawalStrategy

/-- C10.  `WithdrawalStrategy.calculate_withdrawal` leaves the portfolio it
is given completely unchanged: threading the portfolio through every
portfolio-method call the function makes, the portfolio it hands back is the
one it received — the strategy only reads balances and cost bases, and the
caller applies the returned withdrawals itself. -/
theorem calculate_withdrawal_preserves_portfolio (p : AccountPortfolio)
    (amount_needed : ℚ) (age : ℕ) (ordinary_income : ℚ) (filing_jointly : Bool) :
    (WithdrawalStrategy.calculate_withdrawal p amount_needed age ordinary_income
      filing_jointly).2 = p := by
  unfold WithdrawalStrategy.calculate_withdrawal
  rw [WithdrawalStrategy.mainLoop_portfolio]
  by_cases h1 : 73 ≤ age
  · simp only [if_pos h1]
    by_cases h2 : 0 < (WithdrawalStrategy.calculate_rmdS p age).1
    · simp only [if_pos h2, WithdrawalStrategy.rmdLoop_portfolio,
        WithdrawalStrategy.calculate_rmdS_portfolio]
    · simp only [if_neg h2, WithdrawalStrategy.calculate_rmdS_portfolio]
  · simp only [if_neg h1]

/-- Every entry of the RMD divisor table, including the 100+ default, is
positive. -/
theorem distributionPeriod_pos (age : ℕ) :
    0 < WithdrawalStrategy.distributionPeriod age := by
  unfold WithdrawalStrategy.distributionPeriod
  split <;> norm_num

/-- C9.  Every division in the gains-ratio computations and the RMD lookup
is guarded: a zero balance yields gains ratio 0 in the withdrawal strategy
(line 193) and realized capital gains 0 in the forecast engine (lines
258-262), a zero divisor would yield RMD 0 (line 290), and every entry of
the divisor table (including the 100+ default) is positive, so the RMD
division never divides by zero. -/
theorem division_guards :
    (∀ cost_basis, gainsFraction 0 cost_basis = 0) ∧
    (∀ cost_basis tw, forecastCapitalGains 0 cost_basis tw = 0) ∧
    (∀ trad_balance, WithdrawalStrategy.guardedRMD trad_balance 0 = 0) ∧
    (∀ age, 0 < WithdrawalStrategy.distributionPeriod age) := by
  refine ⟨fun cb => ?_, fun cb tw => ?_, fun tb => ?_, distributionPeriod_pos⟩
  · simp [gainsFraction]
  · simp [forecastCapitalGains]
  · simp [WithdrawalStrategy.guardedRMD]

/-- C4.  `run_monte_carlo_simulation` raises on every input instead of
returning a percentile table: each trial begins by calling the
`AccountPortfolio` constructor with two arguments, which it does not accept
(`TypeError`), and a zero-iteration run aggregates over an empty list
(`ValueError`). -/
theorem monte_carlo_always_raises (years iterations : ℕ) (initial_assets : ℚ)
    (account_balances : List (String × ℚ)) :
    ∃ e, run_monte_carlo_simulation years iterations initial_assets
      account_balances = Except.error e := by
  cases iterations with
  | zero => exact ⟨_, rfl⟩
  | succ n => exact ⟨_, rfl⟩

/-- `AccountBalance.__post_init__` always produces non-negative fields. -/
theorem mkAccountBalance_nonneg (b c : ℚ) :
    0 ≤ (mkAccountBalance b c).balance ∧ 0 ≤ (mkAccountBalance b c).cost_basis := by
  constructor <;> simp [mkAccountBalance]

/-- The empty portfolio satisfies the non-negativity invariant. -/
theorem emptyPortfolio_nonneg : PortfolioNonneg emptyPortfolio := by
  intro t a ha
  simp [emptyPortfolio] at ha

/-- `add_account` preserves the non-negativity invariant (its clamps ensure
the new entry satisfies it). -/
theorem add_account_nonneg (p : AccountPortfolio) (hp : PortfolioNonneg p)
    (t : AccountType) (bal cb : ℚ) :
    PortfolioNonneg (p.add_account t bal cb) := by
  intro s a ha
  simp only [AccountPortfolio.add_account, AccountPortfolio.set] at ha
  split at ha
  · cases ha
    exact mkAccountBalance_nonneg bal cb
  · exact hp s a ha

/-- One portfolio call whose growth rate (if any) is at least −1 preserves
non-negativity of every balance and cost basis. -/
theorem runOp_nonneg (p : AccountPortfolio) (op : PortfolioOp)
    (hp : PortfolioNonneg p) (hop : OpGrowthBounded op) :
    PortfolioNonneg (runOp p op) := by
  intro t a ha
  cases op with
  | deposit u amount =>
      simp only [runOp, AccountPortfolio.deposit] at ha
      split at ha
      · exact hp t a ha
      · cases hu : p u with
        | none =>
            rw [hu] at ha
            simp only [AccountPortfolio.set] at ha
            split at ha
            · cases ha
              constructor <;> simp <;> linarith
            · exact hp t a ha
        | some b =>
            rw [hu] at ha
            simp only [AccountPortfolio.set] at ha
            split at ha
            · cases ha
              obtain ⟨h1, h2⟩ := hp u b hu
              constructor <;> simp <;> linarith
            · exact hp t a ha
  | setBalance u nb =>
      simp only [runOp, AccountPortfolio.update_balance] at ha
      split at ha
      · cases hu : p u with
        | none => rw [hu] at ha; cases ha
        | some b =>
            rw [hu] at ha
            cases ha
            obtain ⟨h1, h2⟩ := hp u b hu
            exact ⟨le_max_left 0 nb, h2⟩
      · exact hp t a ha
  | applyGrowth r =>
      simp only [runOp, AccountPortfolio.apply_growth] at ha
      cases ht : p t with
      | none => rw [ht] at ha; cases ha
      | some b =>
          rw [ht] at ha
          cases ha
          obtain ⟨h1, h2⟩ := hp t b ht
          refine ⟨?_, h2⟩
          show 0 ≤ b.balance + b.balance * r
          have hb : b.balance + b.balance * r = b.balance * (1 + r) := by ring
          rw [hb]
          have hr : 0 ≤ 1 + r := by
            simp only [OpGrowthBounded] at hop
            linarith
          exact mul_nonneg h1 hr

/-- C2 (amended).  Starting from a portfolio whose present accounts all have
non-negative balance and cost basis, any sequence of `deposit`, `setBalance`
and `applyGrowth` calls whose growth rates are all at least −1 keeps every
balance and every cost basis non-negative (and hence does so after every
prefix of a longer sequence, since the sequence here is arbitrary).  The
bound `costBasis ≤ balance` of the original claim, and non-negativity under
unrestricted growth rates, are refuted by
`portfolio_nonneg_counterexample`. -/
theorem portfolio_nonneg_amended (p : AccountPortfolio) (ops : List PortfolioOp)
    (hp : PortfolioNonneg p) (hops : ∀ op ∈ ops, OpGrowthBounded op) :
    PortfolioNonneg (runOps p ops) := by
  induction ops generalizing p with
  | nil => exact hp
  | cons op rest ih =>
      have h1 : PortfolioNonneg (runOp p op) :=
        runOp_nonneg p op hp (hops op (List.mem_cons_self op rest))
      exact ih (runOp p op) h1 fun o ho => hops o (List.mem_cons_of_mem op ho)

/-- C2 (counterexample).  The portfolio invariant claimed for arbitrary
arguments fails: on the portfolio `{TAXABLE: balance 100, cost basis 100}`,
`apply_growth(-2)` drives the balance to −100 < 0 (`apply_growth` does not
clamp), and `update_balance(TAXABLE, 10)` leaves the cost basis 100 above
the new balance 10 (`update_balance` does not re-clamp the cost basis). -/
theorem portfolio_nonneg_counterexample :
    (runOps pTaxable100 [PortfolioOp.applyGrowth (-2)]).get_balance
        AccountType.TAXABLE < 0 ∧
    (runOps pTaxable100 [PortfolioOp.setBalance AccountType.TAXABLE 10]).get_cost_basis
        AccountType.TAXABLE >
      (runOps pTaxable100 [PortfolioOp.setBalance AccountType.TAXABLE 10]).get_balance
        AccountType.TAXABLE := by
  constructor <;>
    norm_num [runOps, runOp, pTaxable100, AccountPortfolio.apply_growth,
      AccountPortfolio.update_balance, AccountPortfolio.add_account,
      AccountPortfolio.set, mkAccountBalance, AccountPortfolio.get_balance,
      AccountPortfolio.get_cost_basis, emptyPortfolio]

/-- C2 (witness): the amended invariant applied to the concrete portfolio
`{TAXABLE: 100, 100}` and the call sequence
`[deposit(ROTH_IRA, 5), applyGrowth(1/2), setBalance(TAXABLE, 3)]`. -/
theorem portfolio_nonneg_amended_witness :
    PortfolioNonneg (runOps pTaxable100
      [PortfolioOp.deposit AccountType.ROTH_IRA 5,
       PortfolioOp.applyGrowth (1/2),
       PortfolioOp.setBalance AccountType.TAXABLE 3]) := by
  refine portfolio_nonneg_amended pTaxable100 _
    (add_account_nonneg emptyPortfolio emptyPortfolio_nonneg _ _ _) ?_
  intro op hop
  simp only [List.mem_cons, List.not_mem_nil, or_false] at hop
  rcases hop with h | h | h <;> subst h <;> simp [OpGrowthBounded] <;> norm_num

namespace TaxCalculator

/-- The bracket walk is non-negative when the rates are non-negative, the
limits ascend from `prev`, and the taxable income is at least `prev`. -/
theorem bracketTax_nonneg (topRate : ℚ) (brs : List (ℚ × ℚ)) (prev ti : ℚ)
    (htop : 0 ≤ topRate) (hrs : ∀ pr ∈ brs, 0 ≤ pr.2)
    (hchain : List.Chain (· ≤ ·) prev (brs.map Prod.fst))
    (hti : prev ≤ ti) : 0 ≤ bracketTax topRate brs prev ti := by
  induction brs generalizing prev with
  | nil => exact mul_nonneg (sub_nonneg.2 hti) htop
  | cons hd rest ih =>
      obtain ⟨lim, r⟩ := hd
      rw [List.map_cons, List.chain_cons] at hchain
      simp only [bracketTax]
      split
      · exact mul_nonneg (sub_nonneg.2 hti) (hrs (lim, r) (List.mem_cons_self _ _))
      · refine add_nonneg
          (mul_nonneg (sub_nonneg.2 hchain.1) (hrs (lim, r) (List.mem_cons_self _ _))) ?_
        refine ih lim (fun pr h => hrs pr (List.mem_cons_of_mem _ h)) hchain.2 ?_
        linarith [not_le.1 (by assumption : ¬ ti ≤ lim)]

/-- The bracket walk is monotone in the taxable income. -/
theorem bracketTax_mono (topRate : ℚ) (brs : List (ℚ × ℚ)) (prev ti1 ti2 : ℚ)
    (htop : 0 ≤ topRate) (hrs : ∀ pr ∈ brs, 0 ≤ pr.2)
    (hchain : List.Chain (· ≤ ·) prev (brs.map Prod.fst))
    (h1 : prev ≤ ti1) (h12 : ti1 ≤ ti2) :
    bracketTax topRate brs prev ti1 ≤ bracketTax topRate brs prev ti2 := by
  induction brs generalizing prev with
  | nil =>
      exact mul_le_mul_of_nonneg_right (sub_le_sub_right h12 prev) htop
  | cons hd rest ih =>
      obtain ⟨lim, r⟩ := hd
      rw [List.map_cons, List.chain_cons] at hchain
      have hr : 0 ≤ r := hrs (lim, r) (List.mem_cons_self _ _)
      have hrs' : ∀ pr ∈ rest, 0 ≤ pr.2 := fun pr h => hrs pr (List.mem_cons_of_mem _ h)
      simp only [bracketTax]
      by_cases ha : ti1 ≤ lim
      · by_cases hb : ti2 ≤ lim
        · rw [if_pos ha, if_pos hb]
          exact mul_le_mul_of_nonneg_right (sub_le_sub_right h12 prev) hr
        · rw [if_pos ha, if_neg hb]
          have hlim : lim ≤ ti2 := le_of_not_le hb
          have hpos : 0 ≤ bracketTax topRate rest lim ti2 :=
            bracketTax_nonneg topRate rest lim ti2 htop hrs' hchain.2 hlim
          have : (ti1 - prev) * r ≤ (lim - prev) * r :=
            mul_le_mul_of_nonneg_right (sub_le_sub_right ha prev) hr
          linarith
      · have hb : ¬ ti2 ≤ lim := fun hb => ha (le_trans h12 hb)
        rw [if_neg ha, if_neg hb]
        have hlim : lim ≤ ti1 := le_of_not_le ha
        exact add_le_add_left (ih lim hrs' hchain.2 hlim) _

/-- C6.  `calculate_federal_income_tax` is monotone: a larger income never
pays less federal tax, for either filing status. -/
theorem federal_tax_monotone (income1 income2 : ℚ) (filing_jointly : Bool)
    (h0 : 0 ≤ income1) (h12 : income1 < income2) :
    calculate_federal_income_tax income1 filing_jointly ≤
      calculate_federal_income_tax income2 filing_jointly := by
  unfold calculate_federal_income_tax
  have hded : (0:ℚ) ≤ if filing_jointly then STANDARD_DEDUCTION_JOINT
      else STANDARD_DEDUCTION_SINGLE := by
    cases filing_jointly <;> norm_num [STANDARD_DEDUCTION_JOINT, STANDARD_DEDUCTION_SINGLE]
  set ded := if filing_jointly then STANDARD_DEDUCTION_JOINT else STANDARD_DEDUCTION_SINGLE
  have hti : max 0 (income1 - ded) ≤ max 0 (income2 - ded) :=
    max_le_max (le_refl 0) (by linarith)
  have htop : (0:ℚ) ≤ topFederalRate := by norm_num [topFederalRate]
  have hrs : ∀ pr ∈ (if filing_jointly then FEDERAL_BRACKETS_JOINT
      else FEDERAL_BRACKETS_SINGLE), (0:ℚ) ≤ pr.2 := by
    cases filing_jointly <;>
      · intro pr h
        simp only [FEDERAL_BRACKETS_SINGLE, FEDERAL_BRACKETS_JOINT, if_true, if_false,
          Bool.false_eq_true, List.mem_cons, List.not_mem_nil, or_false] at h
        rcases h with h | h | h | h | h | h <;> subst h <;> norm_num
  have hchain : List.Chain (· ≤ ·) 0 (((if filing_jointly then FEDERAL_BRACKETS_JOINT
      else FEDERAL_BRACKETS_SINGLE)).map Prod.fst) := by
    cases filing_jointly <;>
      · simp only [FEDERAL_BRACKETS_SINGLE, FEDERAL_BRACKETS_JOINT, if_true, if_false,
          Bool.false_eq_true, List.map_cons, List.map_nil]
        repeat constructor <;> norm_num
  by_cases hz1 : max 0 (income1 - ded) ≤ 0
  · rw [if_pos hz1]
    by_cases hz2 : max 0 (income2 - ded) ≤ 0
    · rw [if_pos hz2]
    · rw [if_neg hz2]
      exact bracketTax_nonneg _ _ 0 _ htop hrs hchain (le_of_not_le hz2)
  · rw [if_neg hz1]
    have hz2 : ¬ max 0 (income2 - ded) ≤ 0 := fun h => hz1 (le_trans hti h)
    rw [if_neg hz2]
    exact bracketTax_mono _ _ 0 _ _ htop hrs hchain (le_of_not_le hz1) hti

/-- C6 (witness): the monotonicity theorem applied at incomes 20000 < 30000,
filing single. -/
theorem federal_tax_monotone_witness :
    calculate_federal_income_tax 20000 false ≤
      calculate_federal_income_tax 30000 false :=
  federal_tax_monotone 20000 30000 false (by norm_num) (by norm_num)

end TaxCalculator

namespace TaxCalculator

/-- The gains fit entirely in a 0%-rate first bracket: the loop returns 0. -/
theorem capitalGainsLoop_zero (lim2 r2 gains toi : ℚ) (lim : ℚ)
    (hg : 0 < gains) (htoi0 : 0 ≤ toi) (hfit : toi + gains < lim) :
    capitalGainsLoop topCapitalGainsRate [(lim, 0), (lim2, r2)] 0 0 gains toi = 0 := by
  simp only [capitalGainsLoop]
  rw [max_eq_right htoi0]
  rw [if_neg (by linarith : ¬ lim ≤ toi)]
  rw [min_eq_left (by linarith : gains ≤ lim - toi)]
  rw [if_pos hg]
  rw [if_pos (by linarith : gains - gains ≤ 0)]
  simp

/-- C7.  `calculate_capital_gains_tax` returns 0 for any non-positive gains
(regardless of income and filing status), and returns 0 for positive gains
whenever ordinary income plus gains stays below the filing status's
0%-bracket ceiling (94050 joint, 47025 single). -/
theorem capital_gains_zero_floor :
    (∀ gains ordinary_income filing_jointly, gains ≤ 0 →
       calculate_capital_gains_tax gains ordinary_income filing_jointly = 0) ∧
    (∀ gains ordinary_income filing_jointly, 0 < gains → 0 ≤ ordinary_income →
       ordinary_income + gains < zeroBracketCeiling filing_jointly →
       calculate_capital_gains_tax gains ordinary_income filing_jointly = 0) := by
  constructor
  · intro gains oi fj hg
    unfold calculate_capital_gains_tax
    rw [if_pos hg]
  · intro gains oi fj hg h0 hceil
    unfold calculate_capital_gains_tax
    rw [if_neg (not_le.2 hg)]
    cases fj with
    | false =>
        simp only [zeroBracketCeiling, CAPITAL_GAINS_BRACKETS_SINGLE, if_false,
          Bool.false_eq_true, List.headD_cons] at hceil ⊢
        simp only [STANDARD_DEDUCTION_SINGLE]
        refine capitalGainsLoop_zero _ _ _ _ _ hg (le_max_left 0 _) ?_
        have : max 0 (oi - 14600) ≤ oi := max_le h0 (by linarith)
        linarith
    | true =>
        simp only [zeroBracketCeiling, CAPITAL_GAINS_BRACKETS_JOINT, if_true,
          List.headD_cons] at hceil ⊢
        simp only [STANDARD_DEDUCTION_JOINT]
        refine capitalGainsLoop_zero _ _ _ _ _ hg (le_max_left 0 _) ?_
        have : max 0 (oi - 29200) ≤ oi := max_le h0 (by linarith)
        linarith

/-- C7 (witness): zero tax on gains of −5 at any income, and on gains of
1000 at ordinary income 30000 filing single (30000 + 1000 < 47025). -/
theorem capital_gains_zero_floor_witness :
    calculate_capital_gains_tax (-5) 123456 true = 0 ∧
    calculate_capital_gains_tax 1000 30000 false = 0 :=
  ⟨capital_gains_zero_floor.1 (-5) 123456 true (by norm_num),
   capital_gains_zero_floor.2 1000 30000 false (by norm_num) (by norm_num)
     (by norm_num [zeroBracketCeiling, CAPITAL_GAINS_BRACKETS_SINGLE])⟩

end TaxCalculator

/-- The explicit-balance loop succeeds when every account-name string parses. -/
theorem initFold_ok (l : List (String × ℚ)) (p : AccountPortfolio)
    (h : ∀ nb ∈ l, parseAccountType nb.1 ≠ none) :
    ∃ q, l.foldlM initAccountStep p = Except.ok q := by
  induction l generalizing p with
  | nil => exact ⟨p, rfl⟩
  | cons nb rest ih =>
      rw [List.foldlM_cons]
      cases hp : parseAccountType nb.1 with
      | none => exact absurd hp (h nb (List.mem_cons_self _ _))
      | some t =>
          have hstep : initAccountStep p nb = Except.ok (p.add_account t nb.2
              (if t = AccountType.TAXABLE then nb.2 * (8/10) else nb.2)) := by
            unfold initAccountStep
            rw [hp]
          rw [hstep]
          exact ih _ fun x hx => h x (List.mem_cons_of_mem _ hx)

/-- The explicit-balance loop raises when some account-name string fails to
parse. -/
theorem initFold_err (l : List (String × ℚ)) (p : AccountPortfolio)
    (h : ∃ nb ∈ l, parseAccountType nb.1 = none) :
    ∃ e, l.foldlM initAccountStep p = Except.error e := by
  induction l generalizing p with
  | nil => simp at h
  | cons nb rest ih =>
      rw [List.foldlM_cons]
      cases hp : parseAccountType nb.1 with
      | none =>
          refine ⟨"ValueError: not a valid AccountType: " ++ nb.1, ?_⟩
          have hstep : initAccountStep p nb =
              Except.error ("ValueError: not a valid AccountType: " ++ nb.1) := by
            unfold initAccountStep
            rw [hp]
          rw [hstep]
          rfl
      | some t =>
          have hstep : initAccountStep p nb = Except.ok (p.add_account t nb.2
              (if t = AccountType.TAXABLE then nb.2 * (8/10) else nb.2)) := by
            unfold initAccountStep
            rw [hp]
          rw [hstep]
          refine ih _ ?_
          rcases h with ⟨x, hx, hxp⟩
          rcases List.mem_cons.1 hx with rfl | hx'
          · rw [hp] at hxp
            cases hxp
          · exact ⟨x, hx', hxp⟩

/-- C8 (amended).  Construction fails fast exactly when the explicit
per-account balances contain an account-type string outside the closed
enumeration; the contribution-allocation percentages are stored unvalidated,
so a sum different from 1.0 does not fail (see
`allocation_sum_not_validated`). -/
theorem init_validation_amended (initial_assets : ℚ)
    (account_balances contribution_allocation : List (String × ℚ)) :
    (∃ e, initCalculator initial_assets account_balances contribution_allocation =
        Except.error e) ↔
      ∃ nb ∈ account_balances, parseAccountType nb.1 = none := by
  unfold initCalculator initPortfolio
  by_cases hE : account_balances.isEmpty
  · rw [List.isEmpty_iff] at hE
    subst hE
    simp
  · rw [if_neg hE]
    constructor
    · rintro ⟨e, he⟩
      by_contra hno
      push_neg at hno
      obtain ⟨q, hq⟩ := initFold_ok account_balances emptyPortfolio fun nb h =>
        hno nb h
      rw [hq] at he
      cases he
    · intro h
      obtain ⟨e, hq⟩ := initFold_err account_balances emptyPortfolio h
      rw [hq]
      exact ⟨e, rfl⟩

/-- C8 (counterexample).  A contribution allocation summing to 1/2 (not 1.0)
is accepted: construction succeeds, so the claimed fail-fast validation of
allocation percentages does not exist. -/
theorem allocation_sum_not_validated :
    ∃ c, initCalculator 1000 [("traditional_401k", 500)] [("taxable", 1/2)] =
      Except.ok c :=
  ⟨_, rfl⟩

namespace WithdrawalStrategy

/-- The empty withdrawals dict is trivially within every portfolio. -/
theorem emptyWithdrawals_within (p : AccountPortfolio) :
    WithinBalances p emptyWithdrawals := by
  intro t v h
  simp [emptyWithdrawals] at h

/-- Assigning an amount bounded by the account's balance keeps the dict
within the portfolio. -/
theorem setWithdrawal_within (p : AccountPortfolio) (w : WithdrawalMap)
    (t : AccountType) (v : ℚ) (hw : WithinBalances p w)
    (hv : v ≤ p.get_balance t) : WithinBalances p (setWithdrawal w t v) := by
  intro s u hu
  unfold setWithdrawal at hu
  split at hu
  · cases hu
    rename_i hst
    rw [hst]
    exact hv
  · exact hw s u hu

/-- The RMD pre-pass keeps the withdrawals dict within the portfolio's
balances: each traditional account receives at most its own balance, and
each account in the (duplicate-free) list is touched at most once starting
from an absent entry. -/
theorem rmdLoop_within (l : List AccountType) (s : RmdState)
    (p : AccountPortfolio) (hw : WithinBalances p s.w)
    (hnone : ∀ t ∈ l, s.w t = none) (hnd : l.Nodup) :
    WithinBalances p (rmdLoop l (s, p)).1.w := by
  induction l generalizing s with
  | nil => exact hw
  | cons t rest ih =>
      rw [List.nodup_cons] at hnd
      simp only [rmdLoop, AccountPortfolio.get_balanceS]
      split
      · exact hw
      · split
        · refine ih _ ?_ ?_ hnd.2
          · have hz : s.w t = none := hnone t (List.mem_cons_self _ _)
            refine setWithdrawal_within p s.w t _ hw ?_
            rw [hz]
            simpa using min_le_right s.rmdRem (p.get_balance t)
          · intro x hx
            have hxt : ¬ x = t := fun hxy => hnd.1 (hxy ▸ hx)
            simp only [setWithdrawal, if_neg hxt]
            exact hnone x (List.mem_cons_of_mem _ hx)
        · exact ih _ hw (fun x hx => hnone x (List.mem_cons_of_mem _ hx)) hnd.2

/-- The Traditional branch assigns at most the available balance. -/
theorem traditionalStep_within (ordinary_income : ℚ) (filing_jointly : Bool)
    (t : AccountType) (p : AccountPortfolio) (s : MainState)
    (hw : WithinBalances p s.w) :
    WithinBalances p (traditionalStep ordinary_income filing_jointly t
      (p.get_balance t) s).w := by
  unfold traditionalStep
  exact setWithdrawal_within p s.w t _ hw (min_le_right _ _)

/-- The main ordering pass keeps the withdrawals dict within the
portfolio's balances: every branch records at most the account's balance. -/
theorem mainLoop_within (ordinary_income : ℚ) (filing_jointly : Bool)
    (l : List AccountType) (s : MainState) (p : AccountPortfolio)
    (hw : WithinBalances p s.w) :
    WithinBalances p (mainLoop ordinary_income filing_jointly l (s, p)).1.w := by
  induction l generalizing s with
  | nil => exact hw
  | cons t rest ih =>
      cases t <;>
        simp only [mainLoop, AccountPortfolio.get_balanceS,
          AccountPortfolio.get_cost_basisS] <;>
        split <;> try exact hw
      all_goals split
      any_goals try exact ih _ hw
      all_goals try split
      any_goals try exact ih _ hw
      all_goals
        refine ih _ (by
          first
            | exact traditionalStep_within ordinary_income filing_jointly _ p s hw
            | exact setWithdrawal_within p s.w _ _ hw (min_le_right _ _))

end WithdrawalStrategy

/-- C3.  Withdrawal conservation: every per-account amount in the dict
returned by `calculate_withdrawal` is at most that account's balance in the
portfolio at the time of the call. -/
theorem withdrawal_within_balance (p : AccountPortfolio) (amount_needed : ℚ)
    (age : ℕ) (ordinary_income : ℚ) (filing_jointly : Bool) (t : AccountType)
    (v : ℚ)
    (h : WithdrawalStrategy.withdrawalsOf p amount_needed age ordinary_income
      filing_jointly t = some v) :
    v ≤ p.get_balance t := by
  suffices hW : WithinBalances p (WithdrawalStrategy.withdrawalsOf p
      amount_needed age ordinary_income filing_jointly) from hW t v h
  unfold WithdrawalStrategy.withdrawalsOf WithdrawalStrategy.calculate_withdrawal
  by_cases h1 : 73 ≤ age
  · simp only [if_pos h1]
    by_cases h2 : 0 < (WithdrawalStrategy.calculate_rmdS p age).1
    · simp only [if_pos h2, WithdrawalStrategy.calculate_rmdS_portfolio]
      have hb := WithdrawalStrategy.rmdLoop_portfolio
        [AccountType.TRADITIONAL_401K, AccountType.TRADITIONAL_IRA]
        ({ w := emptyWithdrawals, totOrd := 0,
           rmdRem := (WithdrawalStrategy.calculate_rmdS p age).1,
           remaining := amount_needed }, p)
      have hrw := WithdrawalStrategy.rmdLoop_within
        [AccountType.TRADITIONAL_401K, AccountType.TRADITIONAL_IRA]
        { w := emptyWithdrawals, totOrd := 0,
          rmdRem := (WithdrawalStrategy.calculate_rmdS p age).1,
          remaining := amount_needed } p
        (WithdrawalStrategy.emptyWithdrawals_within p)
        (by intro x hx; rfl) (by decide)
      rw [show (WithdrawalStrategy.rmdLoop
          [AccountType.TRADITIONAL_401K, AccountType.TRADITIONAL_IRA]
          ({ w := emptyWithdrawals, totOrd := 0,
             rmdRem := (WithdrawalStrategy.calculate_rmdS p age).1,
             remaining := amount_needed }, p)).2 = p from hb]
      exact WithdrawalStrategy.mainLoop_within ordinary_income filing_jointly
        WithdrawalStrategy.withdrawalOrder _ p hrw
    · simp only [if_neg h2, WithdrawalStrategy.calculate_rmdS_portfolio]
      exact WithdrawalStrategy.mainLoop_within ordinary_income filing_jointly
        WithdrawalStrategy.withdrawalOrder _ p
        (WithdrawalStrategy.emptyWithdrawals_within p)
  · simp only [if_neg h1]
    exact WithdrawalStrategy.mainLoop_within ordinary_income filing_jointly
      WithdrawalStrategy.withdrawalOrder _ p
      (WithdrawalStrategy.emptyWithdrawals_within p)

/-- C3 (witness): on a portfolio holding one Roth IRA of 100, asking for 50
at age 30 returns a Roth-IRA entry of 50, which the theorem bounds by the
account's balance. -/
theorem withdrawal_within_balance_witness :
    (50 : ℚ) ≤ pRoth.get_balance AccountType.ROTH_IRA :=
  withdrawal_within_balance pRoth 50 30 0 false AccountType.ROTH_IRA 50 (by
    norm_num +decide [WithdrawalStrategy.withdrawalsOf,
      WithdrawalStrategy.calculate_withdrawal, WithdrawalStrategy.mainLoop,
      WithdrawalStrategy.withdrawalOrder, AccountPortfolio.get_balanceS,
      AccountPortfolio.get_cost_basisS, AccountPortfolio.get_balance,
      AccountPortfolio.get_cost_basis, pRoth, emptyPortfolio,
      AccountPortfolio.add_account, AccountPortfolio.set, mkAccountBalance,
      emptyWithdrawals, setWithdrawal, min_def, max_def])

set_option maxHeartbeats 4000000 in
/-- C1 (failing input).  On a portfolio with a single Traditional 401k of
530000 at age 73 (RMD = 530000 / 26.5 = 20000), a request for 21000 with no
other income, filing single, returns Traditional withdrawals totalling only
`1000 / (1 - 0.1076) = 2500000/2231 ≈ 1120.57`: the main pass assigns
(rather than accumulates) into the withdrawals dict at
`account_types.py` line 228, overwriting the RMD entry recorded by the
pre-pass, so the returned Traditional total is strictly below the RMD. -/
theorem rmd_floor_violated :
    (WithdrawalStrategy.withdrawalsOf pRMD 21000 73 0 false
        AccountType.TRADITIONAL_401K).getD 0 +
      (WithdrawalStrategy.withdrawalsOf pRMD 21000 73 0 false
        AccountType.TRADITIONAL_IRA).getD 0 <
      WithdrawalStrategy.calculate_rmd pRMD 73 := by
  have hb1 : pRMD.get_balance AccountType.TRADITIONAL_401K = 530000 := by
    norm_num +decide [pRMD, AccountPortfolio.get_balance,
      AccountPortfolio.add_account, AccountPortfolio.set, mkAccountBalance,
      emptyPortfolio, min_def, max_def]
  have hb2 : pRMD.get_balance AccountType.TRADITIONAL_IRA = 0 := by
    norm_num +decide [pRMD, AccountPortfolio.get_balance,
      AccountPortfolio.add_account, AccountPortfolio.set, mkAccountBalance,
      emptyPortfolio, min_def, max_def]
  have hb3 : pRMD.get_balance AccountType.TAXABLE = 0 := by
    norm_num +decide [pRMD, AccountPortfolio.get_balance,
      AccountPortfolio.add_account, AccountPortfolio.set, mkAccountBalance,
      emptyPortfolio, min_def, max_def]
  have hb4 : pRMD.get_balance AccountType.HSA = 0 := by
    norm_num +decide [pRMD, AccountPortfolio.get_balance,
      AccountPortfolio.add_account, AccountPortfolio.set, mkAccountBalance,
      emptyPortfolio, min_def, max_def]
  have hrmd : WithdrawalStrategy.calculate_rmdS pRMD 73 = (20000, pRMD) := by
    rw [show WithdrawalStrategy.calculate_rmdS pRMD 73 =
      (WithdrawalStrategy.guardedRMD
        (pRMD.get_balance AccountType.TRADITIONAL_401K +
          pRMD.get_balance AccountType.TRADITIONAL_IRA)
        (WithdrawalStrategy.distributionPeriod 73), pRMD) from rfl]
    rw [hb1, hb2]
    norm_num [WithdrawalStrategy.guardedRMD, WithdrawalStrategy.distributionPeriod]
  have ht1 : TaxCalculator.calculate_federal_income_tax 30000 false = 1616 := by
    norm_num [TaxCalculator.calculate_federal_income_tax, TaxCalculator.bracketTax,
      TaxCalculator.FEDERAL_BRACKETS_SINGLE, TaxCalculator.STANDARD_DEDUCTION_SINGLE,
      TaxCalculator.topFederalRate, max_def]
  have ht2 : TaxCalculator.calculate_federal_income_tax 20000 false = 540 := by
    norm_num [TaxCalculator.calculate_federal_income_tax, TaxCalculator.bracketTax,
      TaxCalculator.FEDERAL_BRACKETS_SINGLE, TaxCalculator.STANDARD_DEDUCTION_SINGLE,
      TaxCalculator.topFederalRate, max_def]
  have hw : WithdrawalStrategy.withdrawalsOf pRMD 21000 73 0 false =
      setWithdrawal (setWithdrawal emptyWithdrawals AccountType.TRADITIONAL_401K
        ((emptyWithdrawals AccountType.TRADITIONAL_401K).getD 0 + 20000))
        AccountType.TRADITIONAL_401K (2500000/2231) := by
    unfold WithdrawalStrategy.withdrawalsOf WithdrawalStrategy.calculate_withdrawal
    rw [hrmd]
    norm_num only
    norm_num +decide [WithdrawalStrategy.rmdLoop, WithdrawalStrategy.mainLoop,
      WithdrawalStrategy.traditionalStep, WithdrawalStrategy.withdrawalOrder,
      AccountPortfolio.get_balanceS, AccountPortfolio.get_cost_basisS,
      hb1, hb2, hb3, hb4, ht1, ht2, min_def, max_def]
  rw [hw, WithdrawalStrategy.calculate_rmd, hrmd]
  norm_num +decide [setWithdrawal, emptyWithdrawals]

/-- Each forecast row's `Year` is the start year plus its offset. -/
theorem forecastStep_year (cfg : CalcConfig) (startYear : Int) (year : ℕ)
    (p : AccountPortfolio) :
    (forecastStep cfg startYear year p).1.year = startYear + year := by
  simp only [forecastStep]
  split_ifs <;> rfl

/-- Every row the loop emits from offset `i` onwards has year at least
`startYear + i`. -/
theorem forecastAux_year_lb (cfg : CalcConfig) (sy : Int) :
    ∀ (n i : ℕ) (p : AccountPortfolio) r, r ∈ forecastAux cfg sy n i p →
      sy + i ≤ r.year := by
  intro n
  induction n with
  | zero =>
      intro i p r hr
      simp [forecastAux] at hr
  | succ m ih =>
      intro i p r hr
      rw [forecastAux] at hr
      rcases List.mem_cons.1 hr with rfl | h
      · rw [forecastStep_year]
      · split at h
        · simp at h
        · have hle := ih (i + 1) _ r h
          push_cast at hle ⊢
          linarith

/-- The forecast's years are strictly increasing. -/
theorem forecastAux_chain (cfg : CalcConfig) (sy : Int) :
    ∀ (n i : ℕ) (p : AccountPortfolio),
      List.Chain' (fun a b => a.year < b.year) (forecastAux cfg sy n i p) := by
  intro n
  induction n with
  | zero =>
      intro i p
      simp [forecastAux]
  | succ m ih =>
      intro i p
      rw [forecastAux]
      refine List.chain'_cons'.2 ⟨?_, ?_⟩
      · intro b hb
        split at hb
        · simp at hb
        · have hmem := List.mem_of_mem_head? hb
          have hle := forecastAux_year_lb cfg sy m (i + 1) _ b hmem
          rw [forecastStep_year]
          push_cast at hle ⊢
          linarith
      · split
        · exact List.chain'_nil
        · exact ih (i + 1) _

/-- The forecast stops within the requested horizon. -/
theorem forecastAux_length (cfg : CalcConfig) (sy : Int) :
    ∀ (n i : ℕ) (p : AccountPortfolio), (forecastAux cfg sy n i p).length ≤ n := by
  intro n
  induction n with
  | zero =>
      intro i p
      simp [forecastAux]
  | succ m ih =>
      intro i p
      rw [forecastAux]
      simp only [List.length_cons]
      split
      · simp
      · have := ih (i + 1) ((forecastStep cfg sy i p).2)
        omega

/-- Every non-final forecast row has strictly positive assets: the loop
appends nothing after a row whose clamped assets reach zero. -/
theorem forecastAux_pos (cfg : CalcConfig) (sy : Int) :
    ∀ (n i : ℕ) (p : AccountPortfolio) (j : ℕ) r,
      j + 1 < (forecastAux cfg sy n i p).length →
      (forecastAux cfg sy n i p)[j]? = some r → 0 < r.assets := by
  intro n
  induction n with
  | zero =>
      intro i p j r hlen _
      simp [forecastAux] at hlen
  | succ m ih =>
      intro i p j r hlen hget
      rw [forecastAux] at hlen hget
      by_cases hA : (forecastStep cfg sy i p).1.assets ≤ 0
      · rw [if_pos hA] at hlen hget
        simp at hlen
      · rw [if_neg hA] at hlen hget
        cases j with
        | zero =>
            rw [List.getElem?_cons_zero] at hget
            cases hget
            exact lt_of_not_le hA
        | succ k =>
            rw [List.getElem?_cons_succ] at hget
            simp only [List.length_cons] at hlen
            exact ih (i + 1) _ k r (by omega) hget

/-- C5.  For any configuration, starting portfolio, start year and horizon
of at least one year, `calculate_forecast` produces a non-empty sequence of
rows with strictly increasing years, of length at most the horizon, in
which only the final row can have non-positive (clamped) assets, and whose
final row has assets ≤ 0 exactly when the summary's `assets_depleted` flag
is set. -/
theorem forecast_shape (cfg : CalcConfig) (p0 : AccountPortfolio)
    (startYear : Int) (years : ℕ) (h : 1 ≤ years) :
    ForecastSpec (calculate_forecast cfg p0 startYear years) years := by
  obtain ⟨n, rfl⟩ : ∃ n, years = n + 1 := ⟨years - 1, by omega⟩
  refine ⟨forecastAux_chain cfg startYear (n + 1) 0 p0,
    forecastAux_length cfg startYear (n + 1) 0 p0,
    fun i r h1 h2 => forecastAux_pos cfg startYear (n + 1) 0 p0 i r h1 h2,
    ?_, ?_⟩
  · rw [calculate_forecast, forecastAux]
    exact List.cons_ne_nil _ _
  · intro r hr
    simp [assetsDepleted, hr]

/-- C5 (witness): the shape property at the minimal configuration, an empty
portfolio, start year 2026 and a two-year horizon (the forecast stops after
one row, whose assets are 0). -/
theorem forecast_shape_witness :
    ForecastSpec (calculate_forecast cfg0 emptyPortfolio 2026 2) 2 :=
  forecast_shape cfg0 emptyPortfolio 2026 2 (by norm_num)
